import Mathlib

/-!
Shallow embedding of the rental-management server: the five-table SQLite
schema, the startup seed block, and the read/write API handlers, together
with theorems checking the specification against them.

Modelling conventions:
* A table is a list of rows in insertion order; `AUTOINCREMENT` primary keys
  are modelled by a per-table next-id counter carried in the store.
* SQLite `REAL` amounts are modelled as `ℚ`; every value the program stores
  or aggregates in the claims is exact, so no floating-point behaviour is lost.
* `SUM(amount)` returns SQL `NULL` on an empty table; that is modelled by
  `Option ℚ`, and the JavaScript `|| 0` by `Option.getD 0`.
* `Math.round` rounds half toward positive infinity, i.e. `⌊x + 1/2⌋`.
* The JavaScript expression `Math.round((occ / total) * 100) || 0` yields
  `NaN || 0 = 0` when `total = 0` (then necessarily `occ = 0`); the guard
  `if total = 0 then 0` models exactly that reachable case.
* `ORDER BY ... DESC` on a `TEXT` column is modelled by an insertion sort
  that is descending in the string key.
-/

namespace Rental

structure Property where
  id : Nat
  name : String
  address : String
  type : String
  rent_amount : ℚ
  status : String
deriving DecidableEq

structure Tenant where
  id : Nat
  first_name : String
  last_name : String
  email : String
  phone : Option String
  property_id : Option Nat
deriving DecidableEq

structure Lease where
  id : Nat
  property_id : Nat
  tenant_id : Nat
  start_date : String
  end_date : String
  monthly_rent : ℚ
  status : String
deriving DecidableEq

structure Payment where
  id : Nat
  lease_id : Nat
  amount : ℚ
  payment_date : String
  status : String
deriving DecidableEq

structure Maintenance where
  id : Nat
  property_id : Nat
  description : String
  priority : String
  status : String
  created_at : String
deriving DecidableEq

/-- The whole database: one list per table plus the next `AUTOINCREMENT`
value of each primary key (SQLite row ids start at 1). -/
structure Store where
  properties : List Property
  tenants : List Tenant
  leases : List Lease
  payments : List Payment
  maintenance : List Maintenance
  nextPropertyId : Nat
  nextTenantId : Nat
  nextLeaseId : Nat
  nextPaymentId : Nat
  nextMaintenanceId : Nat
deriving DecidableEq

/-- The freshly created database: all five tables empty. -/
def emptyStore : Store :=
  { properties := [], tenants := [], leases := [], payments := [],
    maintenance := [], nextPropertyId := 1, nextTenantId := 1,
    nextLeaseId := 1, nextPaymentId := 1, nextMaintenanceId := 1 }

/-- `INSERT INTO properties (name, address, type, rent_amount, status)`,
returning `lastInsertRowid`. -/
def insertPropertyRow (s : Store) (name address ty : String) (rent : ℚ)
    (status : String) : Store × Nat :=
  let rowid := s.nextPropertyId
  ({ s with
      properties := s.properties ++
        [{ id := rowid, name := name, address := address, type := ty,
           rent_amount := rent, status := status }],
      nextPropertyId := rowid + 1 }, rowid)

/-- `INSERT INTO tenants (first_name, last_name, email, phone, property_id)`,
returning `lastInsertRowid`. Raw row append, as executed by the seed block
(whose static data satisfies the UNIQUE email constraint). -/
def insertTenantRow (s : Store) (fn ln email : String) (phone : Option String)
    (property_id : Option Nat) : Store × Nat :=
  let rowid := s.nextTenantId
  ({ s with
      tenants := s.tenants ++
        [{ id := rowid, first_name := fn, last_name := ln, email := email,
           phone := phone, property_id := property_id }],
      nextTenantId := rowid + 1 }, rowid)

/-- `INSERT INTO leases (property_id, tenant_id, start_date, end_date,
monthly_rent)`; the omitted status column takes the schema default
`Active`. -/
def insertLeaseRow (s : Store) (property_id tenant_id : Nat)
    (start_date end_date : String) (monthly_rent : ℚ) : Store × Nat :=
  let rowid := s.nextLeaseId
  ({ s with
      leases := s.leases ++
        [{ id := rowid, property_id := property_id, tenant_id := tenant_id,
           start_date := start_date, end_date := end_date,
           monthly_rent := monthly_rent, status := "Active" }],
      nextLeaseId := rowid + 1 }, rowid)

/-- `INSERT INTO payments (lease_id, amount, payment_date)`; the omitted
status column takes the schema default `Paid`. -/
def insertPaymentRow (s : Store) (lease_id : Nat) (amount : ℚ)
    (payment_date : String) : Store × Nat :=
  let rowid := s.nextPaymentId
  ({ s with
      payments := s.payments ++
        [{ id := rowid, lease_id := lease_id, amount := amount,
           payment_date := payment_date, status := "Paid" }],
      nextPaymentId := rowid + 1 }, rowid)

/-- The body of the seed block: the nine fixed inserts, in source order.
Note the second payment is inserted with `lease_id = 3` in the source even
though the two seeded leases receive row ids 1 and 2. -/
def seedRows (s0 : Store) : Store :=
  let (s1, _) := insertPropertyRow s0 "Sunset Apartments - Unit 101"
    "123 Solar Way, Phoenix, AZ" "Apartment" 1200 "Occupied"
  let (s2, _) := insertPropertyRow s1 "Sunset Apartments - Unit 102"
    "123 Solar Way, Phoenix, AZ" "Apartment" 1250 "Available"
  let (s3, _) := insertPropertyRow s2 "Oak Ridge House"
    "456 Forest Dr, Portland, OR" "Single Family" 2500 "Occupied"
  let (s4, _) := insertTenantRow s3 "John" "Doe" "john@example.com"
    (some "555-0101") (some 1)
  let (s5, _) := insertTenantRow s4 "Jane" "Smith" "jane@example.com"
    (some "555-0202") (some 3)
  let (s6, _) := insertLeaseRow s5 1 1 "2024-01-01" "2024-12-31" 1200
  let (s7, _) := insertLeaseRow s6 3 2 "2024-02-01" "2025-01-31" 2500
  let (s8, _) := insertPaymentRow s7 1 1200 "2024-02-01"
  let (s9, _) := insertPaymentRow s8 3 2500 "2024-02-05"
  s9

/-- The seed step: `SELECT COUNT(*) FROM properties`, and the fixed insert
batch only when that count is 0. -/
def seedIfEmpty (s : Store) : Store :=
  if s.properties.length = 0 then seedRows s else s

/-- The store as it stands after first startup against an empty database. -/
def seedStore : Store := seedIfEmpty emptyStore

/-- `SELECT SUM(amount) ...`: SQL `SUM` is `NULL` (here `none`) on an empty
row set, otherwise the sum. -/
def sqlSum (xs : List ℚ) : Option ℚ :=
  if xs.isEmpty then none else some xs.sum

/-- JavaScript `Math.round`: rounds half toward positive infinity. -/
def jsRound (x : ℚ) : ℤ :=
  ⌊x + 1/2⌋

/-- `Math.round((occupied / total) * 100) || 0`. When `total = 0` the
program has `occupied = 0` as well, the division yields `NaN`, and
`NaN || 0` is `0`; the guard models that case. -/
def occupancyRateOf (occupied total : Nat) : ℤ :=
  if total = 0 then 0 else jsRound ((occupied : ℚ) / (total : ℚ) * 100)

structure Stats where
  totalProperties : Nat
  occupancyRate : ℤ
  totalRevenue : ℚ
  openMaintenance : Nat
deriving DecidableEq

/-- Executing one read-only prepared statement (`.get()` / `.all()`) against
the shared database handle: it produces a value and leaves the store as is. -/
def query {α : Type} (f : Store → α) (s : Store) : α × Store :=
  (f s, s)

/-- `GET /api/stats`: four `SELECT` statements, then the JSON response. -/
def getStatsHandler (s : Store) : Stats × Store :=
  let (totalProperties, s1) := query (fun st => st.properties.length) s
  let (occupiedProperties, s2) :=
    query (fun st => (st.properties.filter (fun p => p.status == "Occupied")).length) s1
  let (totalRevenue, s3) :=
    query (fun st => sqlSum (st.payments.map (fun p => p.amount))) s2
  let (openMaintenance, s4) :=
    query (fun st => (st.maintenance.filter (fun m => m.status == "Open")).length) s3
  ({ totalProperties := totalProperties,
     occupancyRate := occupancyRateOf occupiedProperties totalProperties,
     totalRevenue := totalRevenue.getD 0,
     openMaintenance := openMaintenance }, s4)

/-- The JSON body returned by `GET /api/stats`. -/
def getStats (s : Store) : Stats :=
  (getStatsHandler s).1

/-- The occupied-property count used by the stats endpoint
(`SELECT COUNT(*) FROM properties WHERE status = Occupied`). -/
def occupiedCount (s : Store) : Nat :=
  (s.properties.filter (fun p => p.status == "Occupied")).length

/-- Insert `x` into a list already sorted descending in the key `key`. -/
def insertDescBy {α : Type} (key : α → String) (x : α) : List α → List α
  | [] => [x]
  | y :: ys => if key y ≤ key x then x :: y :: ys else y :: insertDescBy key x ys

/-- `ORDER BY key DESC` over a `TEXT` column: sort descending in `key`. -/
def sortDescBy {α : Type} (key : α → String) : List α → List α
  | [] => []
  | x :: xs => insertDescBy key x (sortDescBy key xs)

/-- `GET /api/properties`: `SELECT * FROM properties`. -/
def listProperties (s : Store) : List Property :=
  s.properties

def listPropertiesHandler (s : Store) : List Property × Store :=
  query listProperties s

/-- One output row of `GET /api/tenants`: `t.*` plus `p.name AS
property_name` (`NULL` when the left join finds no property). -/
structure TenantRow where
  tenant : Tenant
  property_name : Option String
deriving DecidableEq

/-- The rows the left join produces for one tenant `t`: one row per
matching property, or a single row with a `NULL` property name when no
property matches `t.property_id` (also when that column is `NULL`). -/
def tenantLeftJoin (props : List Property) (t : Tenant) : List TenantRow :=
  let ps := props.filter (fun p => t.property_id == some p.id)
  if ps.isEmpty then [{ tenant := t, property_name := none }]
  else ps.map (fun p => { tenant := t, property_name := some p.name })

/-- `GET /api/tenants`:
`SELECT t.*, p.name AS property_name FROM tenants t LEFT JOIN properties p
ON t.property_id = p.id`. -/
def listTenants (s : Store) : List TenantRow :=
  s.tenants.flatMap (tenantLeftJoin s.properties)

def listTenantsHandler (s : Store) : List TenantRow × Store :=
  query listTenants s

/-- One output row of `GET /api/payments`: `p.*` plus the joined tenant
name columns and property name. -/
structure PaymentRow where
  payment : Payment
  first_name : String
  last_name : String
  property_name : String
deriving DecidableEq

/-- The inner joins of the payments query, before ordering:
`FROM payments p JOIN leases l ON p.lease_id = l.id JOIN tenants t ON
l.tenant_id = t.id JOIN properties prop ON l.property_id = prop.id`. -/
def paymentJoinRows (s : Store) : List PaymentRow :=
  s.payments.flatMap (fun p =>
    (s.leases.filter (fun l => l.id == p.lease_id)).flatMap (fun l =>
      (s.tenants.filter (fun t => t.id == l.tenant_id)).flatMap (fun t =>
        (s.properties.filter (fun pr => pr.id == l.property_id)).map (fun pr =>
          { payment := p, first_name := t.first_name, last_name := t.last_name,
            property_name := pr.name }))))

/-- `GET /api/payments`: the triple inner join, `ORDER BY p.payment_date
DESC`. -/
def listPayments (s : Store) : List PaymentRow :=
  sortDescBy (fun r => r.payment.payment_date) (paymentJoinRows s)

def listPaymentsHandler (s : Store) : List PaymentRow × Store :=
  query listPayments s

/-- One output row of `GET /api/maintenance`: `m.*` plus `p.name AS
property_name`. -/
structure MaintenanceRow where
  maintenance : Maintenance
  property_name : String
deriving DecidableEq

/-- The inner join of the maintenance query, before ordering:
`FROM maintenance m JOIN properties p ON m.property_id = p.id`. -/
def maintenanceJoinRows (s : Store) : List MaintenanceRow :=
  s.maintenance.flatMap (fun m =>
    (s.properties.filter (fun p => p.id == m.property_id)).map (fun p =>
      { maintenance := m, property_name := p.name }))

/-- `GET /api/maintenance`: the inner join, `ORDER BY m.created_at DESC`. -/
def listMaintenance (s : Store) : List MaintenanceRow :=
  sortDescBy (fun r => r.maintenance.created_at) (maintenanceJoinRows s)

def listMaintenanceHandler (s : Store) : List MaintenanceRow × Store :=
  query listMaintenance s

/-- `POST /api/maintenance`: `INSERT INTO maintenance (property_id,
description, priority)`; the omitted status column takes the schema default
`Open` and `created_at` takes `CURRENT_TIMESTAMP`, modelled by the
explicit `now` argument. The response is `{id: lastInsertRowid}`. -/
def createMaintenance (s : Store) (property_id : Nat)
    (description priority : String) (now : String) : Store × Nat :=
  let rowid := s.nextMaintenanceId
  ({ s with
      maintenance := s.maintenance ++
        [{ id := rowid, property_id := property_id, description := description,
           priority := priority, status := "Open", created_at := now }],
      nextMaintenanceId := rowid + 1 }, rowid)

/-- A storage-engine error surfaced by an insert. -/
inductive DbError where
  | uniqueConstraint : String → DbError
deriving DecidableEq

/-- Modelled from the spec: no endpoint under src inserts a tenant; the
schema declares `email TEXT UNIQUE NOT NULL`, and the spec says inserting a
tenant whose email duplicates an existing tenant fails with a
constraint-violation error and creates no row. This models the storage
engine executing `INSERT INTO tenants ...` under that UNIQUE constraint:
on a duplicate email it fails and returns no new state. -/
def insertTenant (s : Store) (fn ln email : String) (phone : Option String)
    (property_id : Option Nat) : Except DbError (Store × Nat) :=
  if s.tenants.any (fun t => t.email == email) then
    .error (.uniqueConstraint "tenants.email")
  else
    .ok (insertTenantRow s fn ln email phone property_id)

/-! ### Lemmas about the descending sort -/

theorem mem_insertDescBy {α : Type} (key : α → String) (x : α) (l : List α)
    (z : α) : z ∈ insertDescBy key x l ↔ z = x ∨ z ∈ l := by
  induction l with
  | nil => simp [insertDescBy]
  | cons y ys ih =>
    by_cases h : key y ≤ key x
    · simp [insertDescBy, h]
    · simp only [insertDescBy, if_neg h, List.mem_cons, ih]
      tauto

theorem pairwise_insertDescBy {α : Type} (key : α → String) (x : α)
    (l : List α) (hl : l.Pairwise (fun a b => key b ≤ key a)) :
    (insertDescBy key x l).Pairwise (fun a b => key b ≤ key a) := by
  induction l with
  | nil => simp [insertDescBy]
  | cons y ys ih =>
    rcases List.pairwise_cons.1 hl with ⟨hy, hys⟩
    by_cases h : key y ≤ key x
    · rw [insertDescBy, if_pos h]
      refine List.pairwise_cons.2 ⟨?_, hl⟩
      intro z hz
      rcases List.mem_cons.1 hz with rfl | hz
      · exact h
      · exact le_trans (hy z hz) h
    · rw [insertDescBy, if_neg h]
      refine List.pairwise_cons.2 ⟨?_, ih hys⟩
      intro z hz
      rcases (mem_insertDescBy key x ys z).1 hz with rfl | hz
      · exact le_of_not_le h
      · exact hy z hz

theorem mem_sortDescBy {α : Type} (key : α → String) (l : List α) (z : α) :
    z ∈ sortDescBy key l ↔ z ∈ l := by
  induction l with
  | nil => simp [sortDescBy]
  | cons y ys ih =>
    simp only [sortDescBy, mem_insertDescBy, ih, List.mem_cons]

theorem sortDescBy_sorted {α : Type} (key : α → String) (l : List α) :
    (sortDescBy key l).Pairwise (fun a b => key b ≤ key a) := by
  induction l with
  | nil => simp [sortDescBy]
  | cons y ys ih => exact pairwise_insertDescBy key y _ ih

/-! ### Lemmas about the tenants left join -/

theorem tenantLeftJoin_exists (props : List Property) (t : Tenant) :
    ∃ r ∈ tenantLeftJoin props t, r.tenant = t := by
  unfold tenantLeftJoin
  by_cases h : (props.filter (fun p => t.property_id == some p.id)).isEmpty
  · exact ⟨{ tenant := t, property_name := none }, by simp [h], rfl⟩
  · obtain ⟨p, hp⟩ :=
      List.exists_mem_of_ne_nil (props.filter (fun p => t.property_id == some p.id))
        (fun hnil => h (by simp [hnil]))
    exact ⟨{ tenant := t, property_name := some p.name },
      by simp only [if_neg h]; exact List.mem_map.2 ⟨p, hp, rfl⟩, rfl⟩

theorem tenantLeftJoin_mem {props : List Property} {t : Tenant}
    {r : TenantRow} (hr : r ∈ tenantLeftJoin props t) :
    r.tenant = t ∧
      ((r.property_name = none ∧ ∀ p ∈ props, t.property_id ≠ some p.id) ∨
       (∃ p ∈ props, t.property_id = some p.id ∧ r.property_name = some p.name)) := by
  unfold tenantLeftJoin at hr
  by_cases h : (props.filter (fun p => t.property_id == some p.id)).isEmpty
  · rw [if_pos h] at hr
    rcases List.mem_singleton.1 hr with rfl
    refine ⟨rfl, Or.inl ⟨rfl, ?_⟩⟩
    intro p hp hid
    have : p ∈ props.filter (fun p => t.property_id == some p.id) :=
      List.mem_filter.2 ⟨hp, by simp [hid]⟩
    rw [List.isEmpty_iff.1 h] at this
    exact absurd this (List.not_mem_nil p)
  · rw [if_neg h] at hr
    obtain ⟨p, hp, rfl⟩ := List.mem_map.1 hr
    rcases List.mem_filter.1 hp with ⟨hmem, hid⟩
    exact ⟨rfl, Or.inr ⟨p, hmem, by simpa using hid, rfl⟩⟩

/-! ### Claim theorems -/

/-- C1: evaluating the payments listing on the seed data. The seed inserts
its second payment with `lease_id = 3`, but the two seeded leases have row
ids 1 and 2 (violating the FOREIGN KEY the schema itself declares for
`payments.lease_id`), so the inner join drops that payment and the listing
returns a single row — not the two rows the claim states. -/
theorem seed_listPayments_single_row :
    listPayments seedStore =
      [{ payment :=
            { id := 1, lease_id := 1, amount := 1200,
              payment_date := "2024-02-01", status := "Paid" },
         first_name := "John", last_name := "Doe",
         property_name := "Sunset Apartments - Unit 101" }] := by
  decide

/-- C2: on the freshly seeded store, with no further writes, GetStats
returns totalProperties 3, occupancyRate 67 (2 of 3 properties are
Occupied and `round(200/3) = 67`), totalRevenue 3700 (the SUM over the
payments table sees both seeded payments), and openMaintenance 0. -/
theorem seed_stats :
    getStats seedStore =
      { totalProperties := 3, occupancyRate := 67, totalRevenue := 3700,
        openMaintenance := 0 } := by
  have h : getStats seedStore =
      { totalProperties := 3, occupancyRate := occupancyRateOf 2 3,
        totalRevenue := (sqlSum [(1200 : ℚ), 2500]).getD 0,
        openMaintenance := 0 } := rfl
  rw [h]
  have h1 : occupancyRateOf 2 3 = 67 := by
    norm_num [occupancyRateOf, jsRound]
  have h2 : (sqlSum [(1200 : ℚ), 2500]).getD 0 = 3700 := by
    norm_num [sqlSum]
  rw [h1, h2]

/-- C3: whenever the properties table is empty, GetStats reports an
occupancy rate of exactly 0; likewise the extracted rate formula yields 0
at total 0 for every occupied count. -/
theorem occupancy_zero_total :
    (∀ occupied : Nat, occupancyRateOf occupied 0 = 0) ∧
    (∀ s : Store, s.properties = [] → (getStats s).occupancyRate = 0) := by
  constructor
  · intro occupied
    simp [occupancyRateOf]
  · intro s h
    show occupancyRateOf
      ((s.properties.filter (fun p => p.status == "Occupied")).length)
      s.properties.length = 0
    simp [h, occupancyRateOf]

theorem occupancy_zero_total_witness :
    (getStats emptyStore).occupancyRate = 0 :=
  occupancy_zero_total.2 emptyStore rfl

/-- C4: with at least one property, GetStats reports the nearest-integer
rounding of 100 times the occupied fraction, and in particular 1 occupied
property out of 3 yields 33. -/
theorem occupancy_rounding :
    (∀ s : Store, s.properties ≠ [] →
      (getStats s).occupancyRate =
        round ((100 : ℚ) * (occupiedCount s : ℚ) / (s.properties.length : ℚ))) ∧
    occupancyRateOf 1 3 = 33 := by
  constructor
  · intro s h
    have htot : s.properties.length ≠ 0 :=
      fun hh => h (List.length_eq_zero.1 hh)
    show occupancyRateOf
      ((s.properties.filter (fun p => p.status == "Occupied")).length)
      s.properties.length = _
    rw [occupancyRateOf, if_neg htot, jsRound, round_eq]
    congr 1
    rw [occupiedCount]
    ring
  · norm_num [occupancyRateOf, jsRound]

theorem occupancy_rounding_witness :
    (getStats seedStore).occupancyRate =
      round ((100 : ℚ) * (occupiedCount seedStore : ℚ) /
        (seedStore.properties.length : ℚ)) :=
  occupancy_rounding.1 seedStore (by decide)

/-- C5: for every store, the totalRevenue field of GetStats equals the sum
of the amount column over the whole payments table, and it is exactly 0
(the SQL NULL from SUM is coalesced) when that table is empty. -/
theorem totalRevenue_sum :
    (∀ s : Store,
      (getStats s).totalRevenue = (s.payments.map (fun p => p.amount)).sum) ∧
    (∀ s : Store, s.payments = [] → (getStats s).totalRevenue = 0) := by
  constructor
  · intro s
    show (sqlSum (s.payments.map (fun p => p.amount))).getD 0 = _
    rw [sqlSum]
    by_cases h : (s.payments.map (fun p => p.amount)).isEmpty
    · rw [if_pos h, List.isEmpty_iff.1 h]
      rfl
    · rw [if_neg h]
      rfl
  · intro s h
    show (sqlSum (s.payments.map (fun p => p.amount))).getD 0 = 0
    simp [h, sqlSum]

theorem totalRevenue_sum_witness :
    (getStats emptyStore).totalRevenue = 0 :=
  totalRevenue_sum.2 emptyStore rfl

/-- C6: the seed step is idempotent. Seeding the empty store then seeding
again changes nothing; the seeded store holds exactly 3 properties, 2
tenants, 2 leases, 2 payments and no maintenance rows; and on any store
already holding at least one property the seed step is a no-op. -/
theorem seed_idempotent :
    seedIfEmpty seedStore = seedStore ∧
    seedStore.properties.length = 3 ∧
    seedStore.tenants.length = 2 ∧
    seedStore.leases.length = 2 ∧
    seedStore.payments.length = 2 ∧
    seedStore.maintenance = [] ∧
    (∀ s : Store, s.properties ≠ [] → seedIfEmpty s = s) := by
  refine ⟨by decide, by decide, by decide, by decide, by decide, by decide, ?_⟩
  intro s h
  rw [seedIfEmpty, if_neg (fun hh => h (List.length_eq_zero.1 hh))]

theorem seed_idempotent_witness :
    seedIfEmpty seedStore = seedStore :=
  seed_idempotent.2.2.2.2.2.2 seedStore (by decide)

/-- C7: the tenants listing left-joins every tenant with its property name.
On the seed data it returns John Doe with "Sunset Apartments - Unit 101"
and Jane Smith with "Oak Ridge House"; in general every tenant row appears
in the output, a present property_name is the name of a property matching
the tenant's property_id, and an absent property_name means no property
matches. -/
theorem listTenants_left_join :
    listTenants seedStore =
      [{ tenant :=
            { id := 1, first_name := "John", last_name := "Doe",
              email := "john@example.com", phone := some "555-0101",
              property_id := some 1 },
         property_name := some "Sunset Apartments - Unit 101" },
       { tenant :=
            { id := 2, first_name := "Jane", last_name := "Smith",
              email := "jane@example.com", phone := some "555-0202",
              property_id := some 3 },
         property_name := some "Oak Ridge House" }] ∧
    (∀ (s : Store) (t : Tenant), t ∈ s.tenants →
      ∃ r ∈ listTenants s, r.tenant = t) ∧
    (∀ (s : Store) (r : TenantRow), r ∈ listTenants s →
      r.tenant ∈ s.tenants ∧
      (∀ nm : String, r.property_name = some nm →
        ∃ p ∈ s.properties, r.tenant.property_id = some p.id ∧ p.name = nm) ∧
      (r.property_name = none →
        ∀ p ∈ s.properties, r.tenant.property_id ≠ some p.id)) := by
  refine ⟨by decide, ?_, ?_⟩
  · intro s t ht
    obtain ⟨r, hr, hrt⟩ := tenantLeftJoin_exists s.properties t
    exact ⟨r, List.mem_flatMap.2 ⟨t, ht, hr⟩, hrt⟩
  · intro s r hr
    obtain ⟨t, ht, hrj⟩ := List.mem_flatMap.1 hr
    obtain ⟨hrt, hcase⟩ := tenantLeftJoin_mem hrj
    refine ⟨by rw [hrt]; exact ht, ?_, ?_⟩
    · intro nm hnm
      rcases hcase with ⟨hnone, _⟩ | ⟨p, hp, hid, hname⟩
      · rw [hnone] at hnm
        cases hnm
      · refine ⟨p, hp, by rw [hrt]; exact hid, ?_⟩
        exact (Option.some.inj (hname.symm.trans hnm))
    · intro hnone p hp
      rcases hcase with ⟨_, hall⟩ | ⟨q, _, _, hname⟩
      · rw [hrt]
        exact hall p hp
      · rw [hnone] at hname
        cases hname

theorem listTenants_left_join_witness :
    ∃ r ∈ listTenants seedStore,
      r.tenant =
        { id := 1, first_name := "John", last_name := "Doe",
          email := "john@example.com", phone := some "555-0101",
          property_id := some 1 } :=
  listTenants_left_join.2.1 seedStore _ (by decide)

/-- C8: creating a maintenance request against an existing property returns
the fresh row id, and the maintenance listing afterwards contains that row
with status "Open" and the referenced property's name, the whole listing
being ordered by created_at descending. -/
theorem createMaintenance_spec :
    ∀ (s : Store) (pid : Nat) (d pr now : String) (p : Property),
      p ∈ s.properties → p.id = pid →
      (createMaintenance s pid d pr now).2 = s.nextMaintenanceId ∧
      ({ maintenance :=
            { id := (createMaintenance s pid d pr now).2, property_id := pid,
              description := d, priority := pr, status := "Open",
              created_at := now },
         property_name := p.name } : MaintenanceRow) ∈
        listMaintenance (createMaintenance s pid d pr now).1 ∧
      (listMaintenance (createMaintenance s pid d pr now).1).Pairwise
        (fun a b => b.maintenance.created_at ≤ a.maintenance.created_at) := by
  intro s pid d pr now p hp hid
  refine ⟨rfl, ?_, sortDescBy_sorted _ _⟩
  rw [listMaintenance, mem_sortDescBy, maintenanceJoinRows]
  refine List.mem_flatMap.2
    ⟨{ id := s.nextMaintenanceId, property_id := pid, description := d,
       priority := pr, status := "Open", created_at := now }, ?_, ?_⟩
  · exact List.mem_append.2 (Or.inr (List.mem_singleton.2 rfl))
  · refine List.mem_map.2 ⟨p, List.mem_filter.2 ⟨hp, ?_⟩, rfl⟩
    simp [hid]

theorem createMaintenance_spec_witness :
    ({ maintenance :=
          { id := (createMaintenance seedStore 1 "Leaky faucet" "High"
              "2024-03-05 10:00:00").2,
            property_id := 1, description := "Leaky faucet",
            priority := "High", status := "Open",
            created_at := "2024-03-05 10:00:00" },
       property_name := "Sunset Apartments - Unit 101" } : MaintenanceRow) ∈
      listMaintenance (createMaintenance seedStore 1 "Leaky faucet" "High"
        "2024-03-05 10:00:00").1 :=
  (createMaintenance_spec seedStore 1 "Leaky faucet" "High"
    "2024-03-05 10:00:00"
    { id := 1, name := "Sunset Apartments - Unit 101",
      address := "123 Solar Way, Phoenix, AZ", type := "Apartment",
      rent_amount := 1200, status := "Occupied" } (by decide) rfl).2.1

/-- C9: inserting a tenant whose email equals an existing tenant's email
fails with the unique-constraint error on tenants.email and returns no new
store state, so no row is created. -/
theorem insertTenant_duplicate_email :
    ∀ (s : Store) (fn ln email : String) (phone : Option String)
      (property_id : Option Nat),
      (∃ t ∈ s.tenants, t.email = email) →
      insertTenant s fn ln email phone property_id =
        .error (.uniqueConstraint "tenants.email") := by
  intro s fn ln email phone pid h
  obtain ⟨t, ht, he⟩ := h
  rw [insertTenant, if_pos]
  rw [List.any_eq_true]
  exact ⟨t, ht, by simp [he]⟩

theorem insertTenant_duplicate_email_witness :
    insertTenant seedStore "Johnny" "Dupe" "john@example.com" none none =
      .error (.uniqueConstraint "tenants.email") :=
  insertTenant_duplicate_email seedStore "Johnny" "Dupe" "john@example.com"
    none none (by decide)

/-- C10: every read endpoint leaves the store exactly as it found it, and
calling the same read endpoint twice in a row returns the same result. -/
theorem read_endpoints_pure :
    ∀ s : Store,
      (getStatsHandler s).2 = s ∧
      (listPropertiesHandler s).2 = s ∧
      (listTenantsHandler s).2 = s ∧
      (listPaymentsHandler s).2 = s ∧
      (listMaintenanceHandler s).2 = s ∧
      (getStatsHandler ((getStatsHandler s).2)).1 = (getStatsHandler s).1 ∧
      (listPropertiesHandler ((listPropertiesHandler s).2)).1 =
        (listPropertiesHandler s).1 ∧
      (listTenantsHandler ((listTenantsHandler s).2)).1 =
        (listTenantsHandler s).1 ∧
      (listPaymentsHandler ((listPaymentsHandler s).2)).1 =
        (listPaymentsHandler s).1 ∧
      (listMaintenanceHandler ((listMaintenanceHandler s).2)).1 =
        (listMaintenanceHandler s).1 :=
  fun _ => ⟨rfl, rfl, rfl, rfl, rfl, rfl, rfl, rfl, rfl, rfl⟩

end Rental
